import Mathlib

/-!
Shallow embedding of the GraphQL server's transport and authentication glue
(`src/index.ts` together with the bundled `utils.ts` part): the bearer-token
identity resolution (`getUserId`, `getTokenPayload`, `APP_SECRET`), the HTTP
context factory, the HTTP result-type dispatch, the multipart streaming loop,
and the WebSocket `onSubscribe` validation short-circuit.
-/

namespace GraphQLServer

/-- `hasPfx p l` is true when the character list `p` is an initial segment of
`l`.  Used to embed the matching step of JavaScript's `String.replace` with a
plain-string pattern. -/
def hasPfx : List Char → List Char → Bool
  | [], _ => true
  | _ :: _, [] => false
  | p :: ps, c :: cs => p = c && hasPfx ps cs

/-- `occursIn pat l` is true when `pat` occurs as a contiguous run somewhere
inside `l`. -/
def occursIn (pat : List Char) : List Char → Bool
  | [] => hasPfx pat []
  | c :: cs => hasPfx pat (c :: cs) || occursIn pat cs

/-- Embedding of JavaScript `source.replace(pat, '')` with a string pattern on
character lists: removes the FIRST occurrence of `pat` anywhere in the source
(not only as a prefix), and leaves the source unchanged when `pat` does not
occur. -/
def jsReplaceFirstList (pat : List Char) : List Char → List Char
  | [] => []
  | c :: cs =>
    if hasPfx pat (c :: cs) then (c :: cs).drop pat.length
    else c :: jsReplaceFirstList pat cs

/-- JavaScript `s.replace(pat, '')` for a string pattern, on `String`. -/
def jsReplaceFirst (s pat : String) : String :=
  ⟨jsReplaceFirstList pat.data s.data⟩

/-- The process-wide shared secret (`const APP_SECRET = 'GraphQL-is-aw3some'`
in `utils.ts`). -/
def APP_SECRET : String := "GraphQL-is-aw3some"

/-- A decoded token payload.  The subject field `userId` is optional: a decoded
JavaScript object may simply lack the property, in which case destructuring
yields `undefined`, modelled as `none`. -/
structure JwtPayload where
  userId : Option String
deriving DecidableEq, Repr

/-- The failures identity resolution can raise.
`noTokenFound` is the `throw new Error('No token found')` (the spec's
`MissingToken`); `invalidToken` is a `jwt.verify` failure (the spec's
`InvalidToken`); `notAuthenticated` is `throw new Error('Not authenticated')`
(the spec's `NotAuthenticated`).  There is no constructor for the spec's
`MalformedPayload`: the source never raises such an error. -/
inductive AuthError where
  | noTokenFound
  | invalidToken
  | notAuthenticated
deriving DecidableEq, Repr

deriving instance DecidableEq for Except

/-- Modelled from the spec: the external `jsonwebtoken` library's `jwt.sign`
(a "standard signed-token format, signed with a fixed shared secret").  The
token is a concrete injective encoding of the payload together with the
signing secret. -/
def jwtSign (p : JwtPayload) (secret : String) : String :=
  match p.userId with
  | some u => (secret ++ ":u:") ++ u
  | none => secret ++ ":n"

/-- Modelled from the spec: the external `jsonwebtoken` library's `jwt.verify`
("Verify the token's signature against the shared secret ... decode its
payload. Fail with `InvalidToken` if signature verification fails").
Succeeds exactly on tokens produced by `jwtSign` with the same secret. -/
def jwtVerify (token secret : String) : Except AuthError JwtPayload :=
  if token = secret ++ ":n" then .ok ⟨none⟩
  else if hasPfx (secret ++ ":u:").data token.data then
    .ok ⟨some ⟨token.data.drop (secret ++ ":u:").data.length⟩⟩
  else .error .invalidToken

/-- `getTokenPayload` from `utils.ts`: `jwt.verify(token, APP_SECRET)`. -/
def getTokenPayload (token : String) : Except AuthError JwtPayload :=
  jwtVerify token APP_SECRET

/-- The token string `getUserId` submits to verification:
`authHeader.replace('Bearer ', '')`. -/
def stripBearer (authHeader : String) : String :=
  jsReplaceFirst authHeader "Bearer "

/-- The slice of the HTTP header map that identity resolution reads.
`none` models an absent `authorization` field; `some ""` a present but empty
one (JavaScript distinguishes them, but both are falsy). -/
structure Headers where
  authorization : Option String
deriving DecidableEq, Repr

/-- The slice of the request object that identity resolution reads. -/
structure Req where
  headers : Headers
deriving DecidableEq, Repr

/-- `getUserId(req, authToken)` from `utils.ts`.  A JavaScript `throw` is an
`Except.error`; the successful return value is the payload's `userId`
property, which is `undefined` (`none`) when the payload lacks it.
JavaScript truthiness of a string is `≠ ""`; of `req`, that it is not
null/undefined (`Option.isSome`). -/
def getUserId (req : Option Req) (authToken : Option String) :
    Except AuthError (Option String) :=
  match req with
  | some r =>
    match r.headers.authorization with
    | some authHeader =>
      if authHeader = "" then .error .notAuthenticated
      else if stripBearer authHeader = "" then .error .noTokenFound
      else (getTokenPayload (stripBearer authHeader)).map JwtPayload.userId
    | none => .error .notAuthenticated
  | none =>
    match authToken with
    | some t =>
      if t = "" then .error .notAuthenticated
      else (getTokenPayload t).map JwtPayload.userId
    | none => .error .notAuthenticated

/-- JavaScript truthiness of an optional string field: an absent field and the
empty string are both falsy. -/
def jsTruthy : Option String → Bool
  | none => false
  | some s => s ≠ ""

/-- The execution context built for the HTTP path; only the `userId` field is
computed by this repository's code.  `userId = none` models the literal
`null`; `userId = some u` models the value returned by `getUserId(req)`
(itself possibly `undefined`, hence the inner `Option`). -/
structure Context where
  userId : Option (Option String)
deriving DecidableEq, Repr

/-- The `contextFactory` closure passed to `processRequest` on the HTTP path
(`src/index.ts` lines 97-105), parameterised over the identity resolver it
would invoke:
`userId: req && req.headers.authorization ? getUserId(req) : null`.
An exception from the resolver propagates out of context construction. -/
def contextFactory (resolve : Req → Except AuthError (Option String))
    (req : Option Req) : Except AuthError Context :=
  match req with
  | some r =>
    if jsTruthy r.headers.authorization then (resolve r).map (fun u => ⟨some u⟩)
    else .ok ⟨none⟩
  | none => .ok ⟨none⟩

/-- The HTTP context factory exactly as wired in the source: the resolver is
`getUserId(req)` with no raw token. -/
def httpContextFactory (req : Option Req) : Except AuthError Context :=
  contextFactory (fun r => getUserId (some r) none) req

/-- The shape of a `processRequest` result on the HTTP path, as the handler's
`result.type` dispatch sees it: `'RESPONSE'`, `'MULTIPART_RESPONSE'`, or
anything else (the `'PUSH'` shape produced for subscriptions). -/
inductive HelixResult where
  | response (status : Nat) (headers : List (String × String)) (payload : String)
  | multipartResponse (parts : List (String × Bool))
  | push
deriving DecidableEq, Repr

/-- What the handler sends back, abstracted from the fastify reply calls. -/
inductive HttpReply where
  | single (status : Nat) (headers : List (String × String)) (body : String)
  | multipartStream
  | errorReply (status : Nat) (errorMessages : List String)
deriving DecidableEq, Repr

/-- The `result.type` branch of the HTTP handler (`src/index.ts` lines
109-152): a `RESPONSE` result is forwarded verbatim, a `MULTIPART_RESPONSE`
starts the chunked stream, and any other result is answered with status 422
and a single `GraphQLError`. -/
def dispatchResult : HelixResult → HttpReply
  | .response status headers payload => .single status headers payload
  | .multipartResponse _ => .multipartStream
  | .push => .errorReply 422 ["Subscriptions should be sent over WebSocket."]

/-- One multipart part as the handler frames it (`src/index.ts` lines
126-141): CRLF-joined headers, the JSON chunk, and a `---` separator when the
engine signals more chunks. -/
def framePart (payload : String) (hasNext : Bool) : String :=
  let fields := ["", "Content-Type: application/json; charset=utf-8",
    "Content-Length: " ++ toString payload.length, "", payload]
  String.intercalate "\r\n" (if hasNext then fields ++ ["---"] else fields)

/-- An event observed by the streaming loop: the engine delivers a serialized
chunk (with its `hasNext` flag), or the client connection closes. -/
inductive StreamEvent where
  | chunk (payload : String) (hasNext : Bool)
  | close
deriving DecidableEq, Repr

/-- State of one multipart response: whether the handler is still subscribed
to the engine's incremental source, how often `result.unsubscribe()` has been
invoked, and the part frames written so far (after the initial boundary). -/
structure MultipartState where
  subscribed : Bool
  unsubscribeCount : Nat
  frames : List String
deriving DecidableEq, Repr

/-- One step of the multipart streaming loop (`src/index.ts` lines 113-144):
a delivered chunk is framed and written; the `req.on("close", ...)` handler
invokes `result.unsubscribe()`.  Modelled from the spec: the external
engine's incremental source delivers no further chunk callbacks once
unsubscribed, so a chunk event is only effective while subscribed. -/
def multipartStep (s : MultipartState) (e : StreamEvent) : MultipartState :=
  match e with
  | .chunk payload hasNext =>
    if s.subscribed then { s with frames := s.frames ++ [framePart payload hasNext] }
    else s
  | .close => { s with subscribed := false, unsubscribeCount := s.unsubscribeCount + 1 }

/-- The initial state of a multipart response, entered when the handler has
written the opening boundary. -/
def multipartInit : MultipartState := ⟨true, 0, []⟩

/-- Run the streaming loop over a whole sequence of events. -/
def multipartRun (events : List StreamEvent) : MultipartState :=
  events.foldl multipartStep multipartInit

/-- What `onSubscribe` returns for one subscribe message on the WebSocket
transport. -/
inductive OnSubscribeOutcome (α : Type) where
  | validationErrors (errs : List String)
  | executionArgs (args : α)
deriving DecidableEq, Repr

/-- The tail of `onSubscribe` (`src/index.ts` lines 177-180), parameterised
over the external `validate` call's output and the assembled execution
arguments: `if (errors.length) return errors; return args;` (JavaScript
number truthiness: nonzero). -/
def onSubscribeDispatch {α : Type} (errors : List String) (args : α) :
    OnSubscribeOutcome α :=
  if errors.length ≠ 0 then .validationErrors errors else .executionArgs args

/-! ## Helper lemmas -/

theorem strData_append (s t : String) : (s ++ t).data = s.data ++ t.data := by
  cases s; cases t; rfl

theorem hasPfx_append (pat l : List Char) : hasPfx pat (pat ++ l) = true := by
  induction pat with
  | nil => rfl
  | cons p ps ih => simp [hasPfx, ih]

theorem jsReplaceFirstList_append (pat l : List Char) (h : pat ≠ []) :
    jsReplaceFirstList pat (pat ++ l) = l := by
  match pat with
  | [] => exact absurd rfl h
  | p :: ps =>
    rw [List.cons_append, jsReplaceFirstList]
    rw [← List.cons_append, hasPfx_append]
    simp [List.drop_left]

/-- When the pattern occurs nowhere in the source, the JavaScript
`replace(pat, '')` leaves the source unchanged. -/
theorem jsReplaceFirstList_of_not_occurs (pat l : List Char)
    (h : occursIn pat l = false) : jsReplaceFirstList pat l = l := by
  induction l with
  | nil => rfl
  | cons c cs ih =>
    rw [occursIn, Bool.or_eq_false_iff] at h
    rw [jsReplaceFirstList, h.1]
    simp [ih h.2]

/-- Stripping `"Bearer "` from a header of the form `"Bearer " ++ tok` always
yields `tok`: the first occurrence of the pattern is the prefix itself. -/
theorem stripBearer_bearer_append (tok : String) :
    stripBearer ("Bearer " ++ tok) = tok := by
  rw [stripBearer, jsReplaceFirst, strData_append]
  rw [jsReplaceFirstList_append _ _ (by decide)]

/-- The modelled signed-token scheme verifies its own signatures: verifying a
token signed with the same secret recovers the payload. -/
theorem jwtVerify_jwtSign (p : JwtPayload) (s : String) :
    jwtVerify (jwtSign p s) s = .ok p := by
  cases p with
  | mk uid =>
    cases uid with
    | none => simp [jwtSign, jwtVerify]
    | some u =>
      have hne : ((s ++ ":u:") ++ u) ≠ (s ++ ":n") := by
        rw [Ne, String.ext_iff, strData_append, strData_append, strData_append]
        rw [List.append_assoc]
        simp
      have hpfx : hasPfx (s ++ ":u:").data ((s ++ ":u:") ++ u).data = true := by
        rw [strData_append (s ++ ":u:") u]
        exact hasPfx_append _ _
      rw [jwtSign]
      rw [jwtVerify, if_neg hne, if_pos hpfx]
      rw [strData_append (s ++ ":u:") u, List.drop_left]

/-- A token signed by the modelled scheme is never the empty string. -/
theorem jwtSign_ne_empty (p : JwtPayload) : jwtSign p APP_SECRET ≠ "" := by
  have hAS : (APP_SECRET : String).data ≠ [] := by decide
  cases p with
  | mk uid =>
    cases uid with
    | none =>
      rw [jwtSign, Ne, String.ext_iff, strData_append]
      intro hcontra
      rw [List.append_eq_nil] at hcontra
      exact hAS hcontra.1
    | some u =>
      rw [jwtSign, Ne, String.ext_iff, strData_append, strData_append]
      intro hcontra
      rw [List.append_eq_nil, List.append_eq_nil] at hcontra
      exact hAS hcontra.1.1

/-- A header of the form `"Bearer " ++ tok` is never the empty string. -/
theorem bearer_append_ne_empty (tok : String) : ("Bearer " ++ tok) ≠ "" := by
  rw [Ne, String.ext_iff, strData_append]
  intro hcontra
  rw [List.append_eq_nil] at hcontra
  exact absurd hcontra.1 (by decide)

/-- On a header `"Bearer " ++ tok` with `tok` nonempty, `getUserId` submits
exactly `tok` to verification and returns the decoded payload's subject. -/
theorem getUserId_bearer_header (tok : String) (h : tok ≠ "") :
    getUserId (some ⟨⟨some ("Bearer " ++ tok)⟩⟩) none
      = (getTokenPayload tok).map JwtPayload.userId := by
  simp only [getUserId, if_neg (bearer_append_ne_empty tok)]
  rw [stripBearer_bearer_append]
  rw [if_neg h]

/-! ## Claim theorems -/

/-- C1: every payload containing subject `S`, signed with the process-wide
shared secret, resolves back to exactly `S`, both via the header form
`Bearer <token>` and via the raw-token form; `getUserId` is a pure function,
so repeated resolution of the same token yields the same `S` each time. -/
theorem c1_signed_token_resolves_to_subject (S : String) :
    getUserId (some ⟨⟨some ("Bearer " ++ jwtSign ⟨some S⟩ APP_SECRET)⟩⟩) none
        = .ok (some S)
    ∧ getUserId none (some (jwtSign ⟨some S⟩ APP_SECRET)) = .ok (some S) := by
  have hne := jwtSign_ne_empty ⟨some S⟩
  constructor
  · rw [getUserId_bearer_header _ hne, getTokenPayload, jwtVerify_jwtSign]
    rfl
  · simp only [getUserId, if_neg hne]
    rw [getTokenPayload, jwtVerify_jwtSign]
    rfl

/-- C2: a request whose header map has no `authorization` field gets a context
whose identity field is the literal `null`, context construction does not
throw (`Except.ok`), and the identity resolver is not invoked: the result is
the same for every possible resolver. -/
theorem c2_absent_auth_header_null_context
    (resolve : Req → Except AuthError (Option String)) (r : Req)
    (h : r.headers.authorization = none) :
    contextFactory resolve (some r) = .ok ⟨none⟩ := by
  simp [contextFactory, jsTruthy, h]

/-- Witness for C2 at the resolver actually wired in the source and a request
with an empty header map. -/
theorem c2_absent_auth_header_null_context_witness :
    contextFactory (fun r => getUserId (some r) none) (some ⟨⟨none⟩⟩)
      = .ok ⟨none⟩ :=
  c2_absent_auth_header_null_context (fun r => getUserId (some r) none) ⟨⟨none⟩⟩ rfl

/-- C3 counterexample: the claim quantifies over every header whose
authorization value becomes empty after scheme-prefix stripping.  The empty
string is such a value (stripping leaves it empty), but `getUserId` fails on
it with `Not authenticated`, not with the MissingToken error
(`No token found`): the empty header is falsy, so the whole authorization
branch is skipped. -/
theorem c3_empty_header_not_missing_token_cex :
    stripBearer "" = ""
    ∧ getUserId (some ⟨⟨some ""⟩⟩) none = .error .notAuthenticated
    ∧ (Except.error .notAuthenticated : Except AuthError (Option String))
        ≠ .error .noTokenFound := by
  refine ⟨rfl, rfl, by decide⟩

/-- C3 amended: for every NON-EMPTY authorization value that becomes empty
after scheme-prefix stripping (i.e. exactly `"Bearer "`), identity resolution
fails with the MissingToken error (`No token found`). -/
theorem c3_bearer_only_header_missing_token (h : String) (hne : h ≠ "")
    (hstrip : stripBearer h = "") :
    getUserId (some ⟨⟨some h⟩⟩) none = .error .noTokenFound := by
  simp [getUserId, if_neg hne, hstrip]

/-- Witness for the amended C3 at the header value `"Bearer "`. -/
theorem c3_bearer_only_header_missing_token_witness :
    ("Bearer " ≠ "") ∧ stripBearer "Bearer " = ""
    ∧ getUserId (some ⟨⟨some "Bearer "⟩⟩) none = .error .noTokenFound :=
  ⟨by decide, by decide,
    c3_bearer_only_header_missing_token "Bearer " (by decide) (by decide)⟩

/-- C4 counterexample: a token that verifies but whose payload lacks the
subject field does NOT make resolution fail with a MalformedPayload error —
no such error exists in the code.  `const { userId } = getTokenPayload(token)`
destructures to `undefined` and `getUserId` returns it successfully. -/
theorem c4_verified_payload_without_subject_cex :
    getTokenPayload (jwtSign ⟨none⟩ APP_SECRET) = .ok ⟨none⟩
    ∧ getUserId
        (some ⟨⟨some ("Bearer " ++ jwtSign ⟨none⟩ APP_SECRET)⟩⟩) none
      = .ok none := by
  constructor
  · rw [getTokenPayload, jwtVerify_jwtSign]
  · rw [getUserId_bearer_header _ (jwtSign_ne_empty ⟨none⟩)]
    rw [getTokenPayload, jwtVerify_jwtSign]
    rfl

/-- C4 amended: for every header whose stripped token verifies to a payload
lacking the subject field, resolution returns successfully with an absent
(`undefined`) subject; no error is raised. -/
theorem c4_missing_subject_resolves_to_none (t : String) (hne : t ≠ "")
    (hver : getTokenPayload (stripBearer t) = .ok ⟨none⟩) :
    getUserId (some ⟨⟨some t⟩⟩) none = .ok none := by
  by_cases hz : stripBearer t = ""
  · rw [hz] at hver
    exact absurd hver (by decide)
  · simp only [getUserId, if_neg hne, if_neg hz, hver]
    rfl

/-- Witness for the amended C4 at a header carrying a subject-less signed
token. -/
theorem c4_missing_subject_resolves_to_none_witness :
    (("Bearer " ++ jwtSign ⟨none⟩ APP_SECRET) ≠ "")
    ∧ getTokenPayload (stripBearer ("Bearer " ++ jwtSign ⟨none⟩ APP_SECRET))
        = .ok ⟨none⟩
    ∧ getUserId
        (some ⟨⟨some ("Bearer " ++ jwtSign ⟨none⟩ APP_SECRET)⟩⟩) none
      = .ok none :=
  ⟨by decide, by decide,
    c4_missing_subject_resolves_to_none _ (by decide) (by decide)⟩

/-- C5 counterexample: the header `"xBearer y"` is non-empty and does not
start with the scheme prefix `"Bearer "`, yet the token submitted to
verification is `"xy"`, not the full header value: JavaScript's
`String.replace` removes the first occurrence of the pattern anywhere in the
string, not only as a prefix. -/
theorem c5_nonprefix_occurrence_cex :
    ("xBearer y" ≠ "")
    ∧ hasPfx ("Bearer ").data ("xBearer y").data = false
    ∧ stripBearer "xBearer y" = "xy"
    ∧ stripBearer "xBearer y" ≠ "xBearer y" := by
  refine ⟨by decide, by decide, by decide, by decide⟩

/-- C5 amended: for every authorization header value in which `"Bearer "`
does not occur anywhere as a substring, the token string submitted to
signature verification equals the full, unmodified header value. -/
theorem c5_token_unchanged_without_occurrence (h : String)
    (hocc : occursIn ("Bearer ").data h.data = false) :
    stripBearer h = h := by
  rw [stripBearer, jsReplaceFirst, jsReplaceFirstList_of_not_occurs _ _ hocc]

/-- Witness for the amended C5 at the header value `"abc"`. -/
theorem c5_token_unchanged_without_occurrence_witness :
    occursIn ("Bearer ").data ("abc").data = false
    ∧ stripBearer "abc" = "abc" :=
  ⟨by decide, c5_token_unchanged_without_occurrence "abc" (by decide)⟩

/-- C6: every execution result that is neither a single-shot `RESPONSE` nor a
`MULTIPART_RESPONSE` is answered with HTTP status 422 and a body whose error
list is exactly the singleton
`["Subscriptions should be sent over WebSocket."]`. -/
theorem c6_other_result_protocol_error (r : HelixResult)
    (h1 : ∀ status headers payload, r ≠ .response status headers payload)
    (h2 : ∀ parts, r ≠ .multipartResponse parts) :
    dispatchResult r
      = .errorReply 422 ["Subscriptions should be sent over WebSocket."] := by
  cases r with
  | response status headers payload => exact absurd rfl (h1 status headers payload)
  | multipartResponse parts => exact absurd rfl (h2 parts)
  | push => rfl

/-- Witness for C6 at the `PUSH` result shape produced for subscriptions. -/
theorem c6_other_result_protocol_error_witness :
    dispatchResult HelixResult.push
      = .errorReply 422 ["Subscriptions should be sent over WebSocket."] :=
  c6_other_result_protocol_error HelixResult.push
    (fun _ _ _ hcontra => HelixResult.noConfusion hcontra)
    (fun _ hcontra => HelixResult.noConfusion hcontra)

/-- C8: when the external `validate` call returns a non-empty error list,
`onSubscribe` returns exactly those validation errors as the operation's
result, and never the execution arguments: execution is not reached. -/
theorem c8_validation_errors_short_circuit {α : Type}
    (errors : List String) (args : α) (h : errors ≠ []) :
    onSubscribeDispatch errors args = .validationErrors errors
    ∧ ∀ a : α, onSubscribeDispatch errors args ≠ .executionArgs a := by
  have hlen : errors.length ≠ 0 := by
    simpa using h
  constructor
  · rw [onSubscribeDispatch, if_pos hlen]
  · intro a
    rw [onSubscribeDispatch, if_pos hlen]
    intro hcontra
    exact OnSubscribeOutcome.noConfusion hcontra

/-- Witness for C8 at a singleton validation-error list. -/
theorem c8_validation_errors_short_circuit_witness :
    ((["some error"] : List String) ≠ [])
    ∧ onSubscribeDispatch ["some error"] (0 : Nat)
        = .validationErrors ["some error"] :=
  ⟨by decide, (c8_validation_errors_short_circuit ["some error"] 0 (by decide)).1⟩

/-- C9: a request whose `authorization` header is present but equal to the
empty string also gets a `null` identity, with no resolver invocation (the
guard tests truthiness, and the empty string is falsy), so no MissingToken
error can arise from an empty header value on the HTTP path. -/
theorem c9_empty_auth_header_null_context
    (resolve : Req → Except AuthError (Option String)) (r : Req)
    (h : r.headers.authorization = some "") :
    contextFactory resolve (some r) = .ok ⟨none⟩ := by
  simp [contextFactory, jsTruthy, h]

/-- Witness for C9 at the resolver actually wired in the source and a request
whose `authorization` header is the empty string. -/
theorem c9_empty_auth_header_null_context_witness :
    contextFactory (fun r => getUserId (some r) none) (some ⟨⟨some ""⟩⟩)
      = .ok ⟨none⟩ :=
  c9_empty_auth_header_null_context (fun r => getUserId (some r) none)
    ⟨⟨some ""⟩⟩ rfl

/-- C10: when `getUserId` receives both a (truthy) request object and a raw
token, the header-map form takes precedence: for EVERY non-null request —
with or without an `authorization` header — the raw-token argument is ignored
entirely (the result is the same for every raw-token argument); and in
particular a request without an `authorization` header fails with
`Not authenticated` even when a valid raw token was supplied alongside. -/
theorem c10_header_form_precedence (r : Req) :
    (∀ t1 t2 : Option String, getUserId (some r) t1 = getUserId (some r) t2)
    ∧ (r.headers.authorization = none →
        ∀ tok : String, getUserId (some r) (some tok) = .error .notAuthenticated) := by
  constructor
  · intro t1 t2
    rfl
  · intro h tok
    simp [getUserId, h]

/-- Witness for C10: the ignored-raw-token conjunct at a request that DOES
carry a validly signed header alongside a different raw token (the header's
result wins), and the headerless conjunct at a validly signed raw token. -/
theorem c10_header_form_precedence_witness :
    getUserId (some ⟨⟨some ("Bearer " ++ jwtSign ⟨some "alice"⟩ APP_SECRET)⟩⟩)
        (some (jwtSign ⟨some "bob"⟩ APP_SECRET))
      = getUserId (some ⟨⟨some ("Bearer " ++ jwtSign ⟨some "alice"⟩ APP_SECRET)⟩⟩)
        none
    ∧ getUserId (some ⟨⟨none⟩⟩) (some (jwtSign ⟨some "alice"⟩ APP_SECRET))
      = .error .notAuthenticated :=
  ⟨(c10_header_form_precedence
      ⟨⟨some ("Bearer " ++ jwtSign ⟨some "alice"⟩ APP_SECRET)⟩⟩).1
      (some (jwtSign ⟨some "bob"⟩ APP_SECRET)) none,
    (c10_header_form_precedence ⟨⟨none⟩⟩).2 rfl (jwtSign ⟨some "alice"⟩ APP_SECRET)⟩

/-- A chunk delivered to an unsubscribed stream changes nothing, so a
close-free event sequence leaves an unsubscribed state untouched. -/
theorem multipartFoldl_unsubscribed (l : List StreamEvent) (s : MultipartState)
    (hs : s.subscribed = false) (hl : ∀ e ∈ l, e ≠ StreamEvent.close) :
    l.foldl multipartStep s = s := by
  induction l generalizing s with
  | nil => rfl
  | cons e es ih =>
    cases e with
    | chunk payload hasNext =>
      rw [List.foldl_cons]
      have hstep : multipartStep s (.chunk payload hasNext) = s := by
        rw [multipartStep, hs]
        simp
      rw [hstep]
      exact ih s hs (fun e he => hl e (List.mem_cons_of_mem _ he))
    | close => exact absurd rfl (hl _ (List.mem_cons_self _ _))

/-- A close-free event sequence preserves the subscription flag and the
unsubscribe counter. -/
theorem multipartFoldl_no_close_invariants (l : List StreamEvent)
    (s : MultipartState) (hl : ∀ e ∈ l, e ≠ StreamEvent.close) :
    (l.foldl multipartStep s).subscribed = s.subscribed
    ∧ (l.foldl multipartStep s).unsubscribeCount = s.unsubscribeCount := by
  induction l generalizing s with
  | nil => exact ⟨rfl, rfl⟩
  | cons e es ih =>
    cases e with
    | chunk payload hasNext =>
      rw [List.foldl_cons]
      have hsub : (multipartStep s (.chunk payload hasNext)).subscribed
          = s.subscribed := by
        rw [multipartStep]
        split <;> rfl
      have hcnt : (multipartStep s (.chunk payload hasNext)).unsubscribeCount
          = s.unsubscribeCount := by
        rw [multipartStep]
        split <;> rfl
      have hrest := ih (multipartStep s (.chunk payload hasNext))
        (fun e he => hl e (List.mem_cons_of_mem _ he))
      exact ⟨hrest.1.trans hsub, hrest.2.trans hcnt⟩
    | close => exact absurd rfl (hl _ (List.mem_cons_self _ _))

/-- C7: for every streaming session in which the client disconnects
mid-stream (event trace `pre ++ [close] ++ post` with the single close event
marking the disconnect), `result.unsubscribe()` has been invoked exactly once
by the end of the session, and the frames written over the whole session are
exactly the frames written before the disconnect — nothing is written
afterwards. -/
theorem c7_disconnect_unsubscribe_once (pre post : List StreamEvent)
    (hpre : ∀ e ∈ pre, e ≠ StreamEvent.close)
    (hpost : ∀ e ∈ post, e ≠ StreamEvent.close) :
    (multipartRun (pre ++ StreamEvent.close :: post)).unsubscribeCount = 1
    ∧ (multipartRun (pre ++ StreamEvent.close :: post)).frames
        = (multipartRun pre).frames := by
  have key : multipartRun (pre ++ StreamEvent.close :: post)
      = { multipartRun pre with
          subscribed := false
          unsubscribeCount := (multipartRun pre).unsubscribeCount + 1 } := by
    rw [multipartRun, List.foldl_append, List.foldl_cons]
    exact multipartFoldl_unsubscribed post _ rfl hpost
  have hinv := multipartFoldl_no_close_invariants pre multipartInit hpre
  rw [key]
  refine ⟨?_, rfl⟩
  show (multipartRun pre).unsubscribeCount + 1 = 1
  rw [multipartRun, hinv.2]
  rfl

/-- Witness for C7: the client disconnects after the first of three expected
chunks; the unsubscribe counter ends at exactly one. -/
theorem c7_disconnect_unsubscribe_once_witness :
    (∀ e ∈ [StreamEvent.chunk "a" true], e ≠ StreamEvent.close)
    ∧ (∀ e ∈ [StreamEvent.chunk "b" true, StreamEvent.chunk "c" false],
        e ≠ StreamEvent.close)
    ∧ (multipartRun ([StreamEvent.chunk "a" true] ++ StreamEvent.close
        :: [StreamEvent.chunk "b" true, StreamEvent.chunk "c" false])).unsubscribeCount
      = 1 :=
  ⟨by decide, by decide,
    (c7_disconnect_unsubscribe_once [StreamEvent.chunk "a" true]
      [StreamEvent.chunk "b" true, StreamEvent.chunk "c" false]
      (by decide) (by decide)).1⟩

end GraphQLServer
